import Mathlib

/-!
Shallow embedding of the `arc-git annotate` command
(`internal/cmd/root.go`, `internal/prompt`).

External collaborators (the git binary, the generative-text backend, the
config validator and client constructor of the AI SDK, and the JSON
encoder) are modelled as an `Oracle` of behaviours; the git-notes store is
an explicit state so that note-presence checks and note writes compose.
Go panics (out-of-range string slices and list indices) are made explicit
as `Option.none` results.
-/

/-- Decidable equality for `Except`, so that concrete run outcomes can be
checked by `decide`. -/
instance {α β : Type} [DecidableEq α] [DecidableEq β] :
    DecidableEq (Except α β) :=
  fun a b =>
    match a, b with
    | .error x, .error y =>
      if h : x = y then .isTrue (by rw [h]) else .isFalse (by simp [h])
    | .ok x, .ok y =>
      if h : x = y then .isTrue (by rw [h]) else .isFalse (by simp [h])
    | .error _, .ok _ => .isFalse (by simp)
    | .ok _, .error _ => .isFalse (by simp)

namespace ArcGit

/-- Output modes of the CLI surface: text (table, the default), json, yaml,
quiet. -/
inductive OutputMode where
  | table
  | json
  | yaml
  | quiet
deriving DecidableEq, Repr

/-- Struct Commit from root.go: Hash, Message, Author, Date. -/
structure Commit where
  hash : String
  message : String
  author : String
  date : String
deriving DecidableEq, Repr

/-- Struct AnnotationResult from runAnnotate: hash (short form), status,
message, annotation. Absent fields are the empty string (Go zero value /
omitempty). -/
structure AnnotationResult where
  hash : String
  status : String
  message : String
  annotation : String
deriving DecidableEq, Repr

/-- The git-notes store: entries (hash, ref, text). -/
abbrev NotesStore := List (String × String × String)

/-- Function hasNote from root.go: `git notes --ref REF show HASH` succeeds iff a
note for that hash exists under that ref. -/
def hasNote (st : NotesStore) (hash ref : String) : Bool :=
  st.any (fun e => e.1 == hash && e.2.1 == ref)

/-- Behaviour of the external collaborators during one run. -/
structure Oracle where
  /-- The stdout of `git log --format=%H%n%an <%ae>%n%ad%n%s --no-merges ...`,
  or the command's failure. -/
  logOutput : Except String String
  /-- Result of ai.ValidateConfig. -/
  validateConfig : Except String Unit
  /-- Result of ai.NewClient. -/
  newClient : Except String Unit
  /-- For getCommitDiff: stdout of `git show --format= HASH`, or failure. -/
  diff : String → Except String String
  /-- Behaviour of service.Run on (system prompt, user prompt, model): response text
  or failure. -/
  backend : String → String → String → Except String String
  /-- The result of the external `git notes --ref REF add -F FILE HASH`
  invocation, per (hash, ref, text). -/
  addNote : String → String → String → Except String Unit
  /-- Whether the JSON encoder succeeds. -/
  encodeOk : Bool

/-! ## Commit selection (`getCommits`) -/

/-- The parsing loop of `getCommits`:
`for i := 0; i+3 <= len(lines); i += 4 { if lines[i] == "" { break } ... }`
reading `lines[i]`..`lines[i+3]` as hash, author, date, subject.
When exactly three lines remain the loop condition `i+3 <= len(lines)`
holds but `lines[i+3]` is out of range: a Go panic, modelled as `none`. -/
def parseCommits : List String → Option (List Commit)
  | h :: a :: d :: rest =>
    if h = "" then some []
    else
      match rest with
      | [] => none
      | s :: rest2 =>
        (parseCommits rest2).map
          (fun cs => { hash := h, author := a, date := d, message := s } :: cs)
  | _ => some []

/-- Whitespace as trimmed by `strings.TrimSpace` (ASCII range, which is
all that occurs at git-log record boundaries). -/
def isSpace (ch : Char) : Bool :=
  ch == ' ' || ch == '\t' || ch == '\n' || ch == '\x0b' || ch == '\x0c'
    || ch == '\r'

/-- Go strings.TrimSpace. -/
def trimSpace (s : String) : String :=
  ⟨((s.data.dropWhile isSpace).reverse.dropWhile isSpace).reverse⟩

/-- Go strings.Split on a newline separator, over the character list: every newline is a
separator, so n separators yield n+1 fields and the empty string yields
one empty field. -/
def splitNewline : List Char → List (List Char)
  | [] => [[]]
  | ch :: rest =>
    match splitNewline rest with
    | [] => [[]]
    | l :: ls => if ch = '\n' then [] :: l :: ls else (ch :: l) :: ls

/-- The line list strings.Split(strings.TrimSpace(out), newline). -/
def splitLines (out : String) : List String :=
  (splitNewline (trimSpace out).data).map (fun l => ⟨l⟩)

/-- Function getCommits: run git log, wrap a command failure as
"git log failed: …", parse the trimmed output. `Except.ok none` is a
parsing panic. -/
def getCommits (logOutput : Except String String) :
    Except String (Option (List Commit)) :=
  match logOutput with
  | .error e => .error ("git log failed: " ++ e)
  | .ok out => .ok (parseCommits (splitLines out))

/-! ## Prompt construction (`internal/prompt`) -/

/-- Constant AnnotateCommitModel from the prompt package. -/
def AnnotateCommitModel : String := "claude-sonnet-4-5-20250929"

/-- System prompt of `prompt.AnnotateCommit`. -/
def annotateSystemPrompt : String :=
  "You are an expert code archaeologist and technical documentation specialist. Your task is to analyze git commits and generate clear, informative annotations that explain the technical significance of the changes.\n\nYour annotations should:\n1. Explain the technical purpose and impact of the changes\n2. Identify what problem was solved or what feature was added\n3. Note any architectural or design implications\n4. Highlight important implementation details\n5. Keep it concise but informative (2-5 sentences)\n6. Use present tense and clear, professional language\n7. Focus on the \"why\" and \"impact\", not just the \"what\"\n\nFormat your annotation as a single paragraph without bullet points or markdown."

/-- Function prompt.AnnotateCommit: returns (system, user) prompts; the user
prompt embeds the (short) hash, author, date, message and raw diff. -/
def AnnotateCommit (hash message author date diff : String) :
    String × String :=
  (annotateSystemPrompt,
   "Analyze this git commit and provide a technical annotation:\n\nCommit: "
     ++ hash ++ "\nAuthor: " ++ author ++ "\nDate: " ++ date
     ++ "\nMessage: " ++ message ++ "\n\nChanges:\n" ++ diff
     ++ "\n\nProvide a technical annotation that explains the significance of these changes:")

/-- Function generateAnnotation: builds the prompts from `commit.Hash[:7]` (a Go
panic — `none` — if the hash is shorter than 7), invokes the backend with
the fixed model, wraps failure as "AI request failed: …", trims the
response. -/
def generateAnnotation (o : Oracle) (commit : Commit) (diff : String) :
    Option (Except String String) :=
  if 7 ≤ commit.hash.length then
    let p := AnnotateCommit (commit.hash.take 7) commit.message
      commit.author commit.date diff
    match o.backend p.1 p.2 AnnotateCommitModel with
    | .error e => some (.error ("AI request failed: " ++ e))
    | .ok text => some (.ok (trimSpace text))
  else none

/-! ## The per-commit loop of `runAnnotate` -/

/-- Mutable state of the processing loop: the notes store, the three
counters, the results slice, the progress lines printed so far, and the
trace of `addNote` invocations. -/
structure LoopState where
  notes : NotesStore
  annotated : Nat
  skipped : Nat
  failed : Nat
  results : List AnnotationResult
  progress : List String
  noteWrites : List (String × String × String)
deriving DecidableEq, Repr

/-- The logProgress helper prints iff the mode is none of quiet/json/yaml. -/
def progressEnabled (mode : OutputMode) : Bool :=
  !(mode == .quiet) && !(mode == .json) && !(mode == .yaml)

/-- Append a progress line when the mode allows it. -/
def logProgress (mode : OutputMode) (acc : List String) (msg : String) :
    List String :=
  if progressEnabled mode then acc ++ [msg] else acc

/-- One iteration of the loop body of `runAnnotate` for commit number
`i` (0-based) of `n`. Every branch slices `commit.Hash[:7]`; the first
slice is evaluated before anything else (it is an argument of the first
progress call), so a hash shorter than 7 panics (`none`) regardless of
mode. -/
def processCommit (o : Oracle) (dryRun force : Bool) (mode : OutputMode)
    (n i : Nat) (st : LoopState) (commit : Commit) : Option LoopState :=
  if 7 ≤ commit.hash.length then
    let short := commit.hash.take 7
    let prog0 := logProgress mode st.progress
      ("[" ++ toString (i + 1) ++ "/" ++ toString n ++ "] Processing " ++ short)
    if !force && hasNote st.notes commit.hash "ai" then
      some { st with
        skipped := st.skipped + 1,
        progress := logProgress mode prog0
          "  Already annotated (use --force to re-annotate)",
        results := st.results ++
          [{ hash := short, status := "skipped",
             message := "already annotated", annotation := "" }] }
    else
      match o.diff commit.hash with
      | .error e =>
        some { st with
          failed := st.failed + 1,
          progress := logProgress mode prog0 ("  Failed to get diff: " ++ e),
          results := st.results ++
            [{ hash := short, status := "failed",
               message := "failed to get diff: " ++ e, annotation := "" }] }
      | .ok diff =>
        if diff.length = 0 then
          some { st with
            skipped := st.skipped + 1,
            progress := logProgress mode prog0
              "  No diff (merge commit?), skipping",
            results := st.results ++
              [{ hash := short, status := "skipped",
                 message := "no diff (merge commit?)", annotation := "" }] }
        else
          let prog1 := logProgress mode prog0 "  Generating AI annotation..."
          match generateAnnotation o commit diff with
          | none => none
          | some (.error e) =>
            some { st with
              failed := st.failed + 1,
              progress := logProgress mode prog1
                ("  Failed to generate annotation: " ++ e),
              results := st.results ++
                [{ hash := short, status := "failed",
                   message := "failed to generate annotation: " ++ e,
                   annotation := "" }] }
          | some (.ok annotation) =>
            if dryRun then
              some { st with
                annotated := st.annotated + 1,
                progress := logProgress mode prog1
                  ("--- Annotation for " ++ short ++ " ---\n" ++ annotation),
                results := st.results ++
                  [{ hash := short, status := "preview",
                     message := "", annotation := annotation }] }
            else
              match o.addNote commit.hash "ai" annotation with
              | .error e =>
                some { st with
                  failed := st.failed + 1,
                  progress := logProgress mode prog1
                    ("  Failed to add note: " ++ e),
                  noteWrites := st.noteWrites ++ [(commit.hash, "ai", annotation)],
                  results := st.results ++
                    [{ hash := short, status := "failed",
                       message := "failed to add note: " ++ e,
                       annotation := "" }] }
              | .ok _ =>
                some { st with
                  annotated := st.annotated + 1,
                  notes := st.notes ++ [(commit.hash, "ai", annotation)],
                  progress := logProgress mode prog1 "  Annotated successfully",
                  noteWrites := st.noteWrites ++ [(commit.hash, "ai", annotation)],
                  results := st.results ++
                    [{ hash := short, status := "success",
                       message := "", annotation := annotation }] }
  else none

/-- The whole `for i, commit := range commits` loop. -/
def processLoop (o : Oracle) (dryRun force : Bool) (mode : OutputMode)
    (n : Nat) : Nat → LoopState → List Commit → Option LoopState
  | _, st, [] => some st
  | i, st, c :: cs =>
    match processCommit o dryRun force mode n i st c with
    | none => none
    | some st2 => processLoop o dryRun force mode n (i + 1) st2 cs

/-! ## The run (`runAnnotate`) -/

/-- What the final output switch of `runAnnotate` emits. -/
inductive Summary where
  /-- The single JSON-encoded structure
  {total, annotated, skipped, failed, dry_run, results}. -/
  | jsonSummary (total annotated skipped failed : Nat) (dryRun : Bool)
      (results : List AnnotationResult)
  /-- The human-readable "=== Annotation Complete ===" block. -/
  | textSummary (annotated skipped failed : Nat) (dryRun : Bool)
  /-- No summary block at all. -/
  | noSummary
deriving DecidableEq, Repr

/-- Observable outcome of a run that returned nil. -/
structure RunOutput where
  total : Nat
  annotated : Nat
  skipped : Nat
  failed : Nat
  results : List AnnotationResult
  progress : List String
  summary : Summary
  notes : NotesStore
  noteWrites : List (String × String × String)
deriving DecidableEq, Repr

/-- Function runAnnotate. A `none` is a Go panic; `some (.error e)` is a non-nil
return (non-zero exit, no summary); `some (.ok out)` is a nil return with
the observable outputs. -/
def runAnnotate (o : Oracle) (dryRun force : Bool) (mode : OutputMode)
    (initNotes : NotesStore) : Option (Except String RunOutput) :=
  let prog0 := logProgress mode [] "Starting git history annotation..."
  match getCommits o.logOutput with
  | .error e => some (.error ("failed to get commits: " ++ e))
  | .ok none => none
  | .ok (some commits) =>
    if commits.length = 0 then
      some (.ok
        { total := 0, annotated := 0, skipped := 0, failed := 0,
          results := [],
          progress := logProgress mode prog0 "No commits to annotate.",
          summary := .noSummary, notes := initNotes, noteWrites := [] })
    else
      let prog1 := logProgress mode prog0
        ("Found " ++ toString commits.length ++ " commits to annotate")
      match o.validateConfig with
      | .error e => some (.error ("invalid AI configuration: " ++ e))
      | .ok _ =>
        match o.newClient with
        | .error e => some (.error ("failed to create AI client: " ++ e))
        | .ok _ =>
          match processLoop o dryRun force mode commits.length 0
            { notes := initNotes, annotated := 0, skipped := 0, failed := 0,
              results := [], progress := prog1, noteWrites := [] } commits with
          | none => none
          | some st =>
            match mode with
            | .json =>
              if o.encodeOk then
                some (.ok
                  { total := commits.length, annotated := st.annotated,
                    skipped := st.skipped, failed := st.failed,
                    results := st.results, progress := st.progress,
                    summary := .jsonSummary commits.length st.annotated
                      st.skipped st.failed dryRun st.results,
                    notes := st.notes, noteWrites := st.noteWrites })
              else some (.error "failed to encode JSON")
            | .quiet =>
              some (.ok
                { total := commits.length, annotated := st.annotated,
                  skipped := st.skipped, failed := st.failed,
                  results := st.results, progress := st.progress,
                  summary := .noSummary,
                  notes := st.notes, noteWrites := st.noteWrites })
            | _ =>
              some (.ok
                { total := commits.length, annotated := st.annotated,
                  skipped := st.skipped, failed := st.failed,
                  results := st.results, progress := st.progress,
                  summary := .textSummary st.annotated st.skipped st.failed dryRun,
                  notes := st.notes, noteWrites := st.noteWrites })

/-- Whether a summary is the single encoded structure
{total, annotated, skipped, failed, dry_run, results} of the
structured-output contract. -/
def isEncodedSummary : Summary → Bool
  | .jsonSummary _ _ _ _ _ _ => true
  | _ => false

/-! ## Concrete instances used to exercise the theorems -/

/-- A commit as parsed from one healthy git-log record. -/
def cA : Commit :=
  { hash := "aaaaaaa1", message := "first change",
    author := "Alice <a@x>", date := "2025-01-01" }

/-- The loop state at entry: nothing annotated, nothing recorded. -/
def st0 : LoopState :=
  { notes := [], annotated := 0, skipped := 0, failed := 0,
    results := [], progress := [], noteWrites := [] }

/-- An environment where every external collaborator succeeds, over a
one-commit history. -/
def oracleA : Oracle :=
  { logOutput := .ok "aaaaaaa1\nAlice <a@x>\n2025-01-01\nfirst change",
    validateConfig := .ok (), newClient := .ok (),
    diff := fun _ => .ok "difftext",
    backend := fun _ _ _ => .ok " a note ",
    addNote := fun _ _ _ => .ok (),
    encodeOk := true }

/-- Outcome of `runAnnotate oracleA false false .json []`. -/
def recA : RunOutput :=
  { total := 1, annotated := 1, skipped := 0, failed := 0,
    results := [{ hash := "aaaaaaa", status := "success", message := "",
                  annotation := "a note" }],
    progress := [],
    summary := .jsonSummary 1 1 0 0 false
      [{ hash := "aaaaaaa", status := "success", message := "",
         annotation := "a note" }],
    notes := [("aaaaaaa1", "ai", "a note")],
    noteWrites := [("aaaaaaa1", "ai", "a note")] }

/-- Outcome of `runAnnotate oracleA false false .yaml []`: same loop
results, but the summary goes through the default text branch. -/
def recY : RunOutput :=
  { total := 1, annotated := 1, skipped := 0, failed := 0,
    results := [{ hash := "aaaaaaa", status := "success", message := "",
                  annotation := "a note" }],
    progress := [],
    summary := .textSummary 1 0 0 false,
    notes := [("aaaaaaa1", "ai", "a note")],
    noteWrites := [("aaaaaaa1", "ai", "a note")] }

/-- State after one successful iteration from `st0` in quiet mode. -/
def stA : LoopState :=
  { notes := [("aaaaaaa1", "ai", "a note")], annotated := 1, skipped := 0,
    failed := 0,
    results := [{ hash := "aaaaaaa", status := "success", message := "",
                  annotation := "a note" }],
    progress := [], noteWrites := [("aaaaaaa1", "ai", "a note")] }

/-- A three-commit history, all collaborators succeeding. -/
def oracle3 : Oracle :=
  { logOutput := .ok
      "aaaaaaa1\nAlice <a@x>\n2025-01-01\nfirst change\nbbbbbbb2\nBob <b@x>\n2025-01-02\nsecond change\nccccccc3\nCarol <c@x>\n2025-01-03\nthird change",
    validateConfig := .ok (), newClient := .ok (),
    diff := fun _ => .ok "difftext",
    backend := fun _ _ _ => .ok " a note ",
    addNote := fun _ _ _ => .ok (),
    encodeOk := true }

/-- Results of the three-commit dry run: three previews. -/
def rec3results : List AnnotationResult :=
  [{ hash := "aaaaaaa", status := "preview", message := "",
     annotation := "a note" },
   { hash := "bbbbbbb", status := "preview", message := "",
     annotation := "a note" },
   { hash := "ccccccc", status := "preview", message := "",
     annotation := "a note" }]

/-- Outcome of `runAnnotate oracle3 true false .json []`: the dry-run
JSON example over 3 commits. Note annotated = 3. -/
def rec3 : RunOutput :=
  { total := 3, annotated := 3, skipped := 0, failed := 0,
    results := rec3results, progress := [],
    summary := .jsonSummary 3 3 0 0 true rec3results,
    notes := [], noteWrites := [] }

/-- An environment whose diff fetcher returns an empty diff. -/
def oracleC7 : Oracle :=
  { logOutput := .ok "aaaaaaa1\nAlice <a@x>\n2025-01-01\nfirst change",
    validateConfig := .ok (), newClient := .ok (),
    diff := fun _ => .ok "",
    backend := fun _ _ _ => .ok " a note ",
    addNote := fun _ _ _ => .ok (),
    encodeOk := true }

/-- Outcome of running `oracleC7` with force over a commit that already
carries a note: the empty diff still yields a skip. -/
def recC7 : RunOutput :=
  { total := 1, annotated := 0, skipped := 1, failed := 0,
    results := [{ hash := "aaaaaaa", status := "skipped",
                  message := "no diff (merge commit?)", annotation := "" }],
    progress := [],
    summary := .jsonSummary 1 0 1 0 false
      [{ hash := "aaaaaaa", status := "skipped",
         message := "no diff (merge commit?)", annotation := "" }],
    notes := [("aaaaaaa1", "ai", "old note")],
    noteWrites := [] }

/-- An environment whose git-log query yields no commits, with an
invalid AI configuration. -/
def oracleEmpty : Oracle :=
  { logOutput := .ok "",
    validateConfig := .error "missing API key",
    newClient := .error "missing API key",
    diff := fun _ => .error "unused",
    backend := fun _ _ _ => .error "unused",
    addNote := fun _ _ _ => .error "unused",
    encodeOk := true }

/-- An environment whose git-log query itself fails. -/
def oracleLogErr : Oracle :=
  { logOutput := .error "not a git repository",
    validateConfig := .ok (), newClient := .ok (),
    diff := fun _ => .ok "difftext",
    backend := fun _ _ _ => .ok " a note ",
    addNote := fun _ _ _ => .ok (),
    encodeOk := true }

/-- An environment whose diff fetcher fails. -/
def oracleDiffErr : Oracle :=
  { logOutput := .ok "aaaaaaa1\nAlice <a@x>\n2025-01-01\nfirst change",
    validateConfig := .ok (), newClient := .ok (),
    diff := fun _ => .error "bad object",
    backend := fun _ _ _ => .ok " a note ",
    addNote := fun _ _ _ => .ok (),
    encodeOk := true }

/-- An environment whose generative backend fails. -/
def oracleGenErr : Oracle :=
  { logOutput := .ok "aaaaaaa1\nAlice <a@x>\n2025-01-01\nfirst change",
    validateConfig := .ok (), newClient := .ok (),
    diff := fun _ => .ok "difftext",
    backend := fun _ _ _ => .error "rate limit",
    addNote := fun _ _ _ => .ok (),
    encodeOk := true }

/-- An environment whose note-add invocation fails. -/
def oracleAddErr : Oracle :=
  { logOutput := .ok "aaaaaaa1\nAlice <a@x>\n2025-01-01\nfirst change",
    validateConfig := .ok (), newClient := .ok (),
    diff := fun _ => .ok "difftext",
    backend := fun _ _ _ => .ok " a note ",
    addNote := fun _ _ _ => .error "ref locked",
    encodeOk := true }

/-- Loop state over a store that already annotates `cA`. -/
def stPre : LoopState :=
  { st0 with notes := [("aaaaaaa1", "ai", "old note")] }

/-- A commit whose parsed hash line is shorter than 7 characters. -/
def cShort : Commit :=
  { hash := "abc", message := "m", author := "a", date := "d" }

/-! ## Helper lemmas about the loop -/

/-- Every completed loop iteration appends exactly one result and bumps
exactly one of the three counters. -/
theorem processCommit_step
    (o : Oracle) (dryRun force : Bool) (mode : OutputMode) (n i : Nat)
    (st : LoopState) (c : Commit) (st' : LoopState)
    (h : processCommit o dryRun force mode n i st c = some st') :
    (∃ r, st'.results = st.results ++ [r] ∧ r.hash = c.hash.take 7) ∧
      st'.annotated + st'.skipped + st'.failed
        = st.annotated + st.skipped + st.failed + 1 := by
  simp only [processCommit] at h
  repeat' split at h
  all_goals cases h
  all_goals refine ⟨⟨_, rfl, ?_⟩, by dsimp only; omega⟩
  all_goals with_reducible rfl

/-- A completed loop run appends one result per commit and its counters
sum to the number of commits processed. -/
theorem processLoop_counts
    (o : Oracle) (dryRun force : Bool) (mode : OutputMode) (n : Nat) :
    ∀ (cs : List Commit) (i : Nat) (st st' : LoopState),
      processLoop o dryRun force mode n i st cs = some st' →
      st'.results.length = st.results.length + cs.length ∧
        st'.annotated + st'.skipped + st'.failed
          = st.annotated + st.skipped + st.failed + cs.length := by
  intro cs
  induction cs with
  | nil =>
    intro i st st' h
    simp only [processLoop] at h
    cases h
    simp
  | cons c cs ih =>
    intro i st st' h
    simp only [processLoop] at h
    cases hc : processCommit o dryRun force mode n i st c with
    | none => rw [hc] at h; exact Option.noConfusion h
    | some st2 =>
      rw [hc] at h
      obtain ⟨⟨r, hr, _⟩, hcount⟩ :=
        processCommit_step o dryRun force mode n i st c st2 hc
      obtain ⟨hlen, hsum⟩ := ih (i + 1) st2 st' h
      constructor
      · rw [hlen, hr]
        simp
        omega
      · rw [hsum, hcount]
        simp [Nat.add_assoc, Nat.add_comm]
        omega

/-- In json/yaml/quiet modes a loop iteration emits no progress line. -/
theorem processCommit_progress
    (o : Oracle) (dryRun force : Bool) (mode : OutputMode) (n i : Nat)
    (st : LoopState) (c : Commit) (st' : LoopState)
    (hmode : progressEnabled mode = false)
    (h : processCommit o dryRun force mode n i st c = some st') :
    st'.progress = st.progress := by
  simp only [processCommit, logProgress, hmode, if_neg Bool.false_ne_true] at h
  repeat' split at h
  all_goals first
    | exact Option.noConfusion h
    | (cases h; rfl)

/-- In json/yaml/quiet modes the whole loop emits no progress line. -/
theorem processLoop_progress
    (o : Oracle) (dryRun force : Bool) (mode : OutputMode) (n : Nat)
    (hmode : progressEnabled mode = false) :
    ∀ (cs : List Commit) (i : Nat) (st st' : LoopState),
      processLoop o dryRun force mode n i st cs = some st' →
      st'.progress = st.progress := by
  intro cs
  induction cs with
  | nil =>
    intro i st st' h
    simp only [processLoop] at h
    cases h
    rfl
  | cons c cs ih =>
    intro i st st' h
    simp only [processLoop] at h
    cases hc : processCommit o dryRun force mode n i st c with
    | none => rw [hc] at h; exact Option.noConfusion h
    | some st2 =>
      rw [hc] at h
      rw [ih (i + 1) st2 st' h,
        processCommit_progress o dryRun force mode n i st c st2 hmode hc]

/-- In dry-run mode a loop iteration neither invokes the note writer nor
changes the notes store. -/
theorem processCommit_dryRun_frame
    (o : Oracle) (force : Bool) (mode : OutputMode) (n i : Nat)
    (st : LoopState) (c : Commit) (st' : LoopState)
    (h : processCommit o true force mode n i st c = some st') :
    st'.notes = st.notes ∧ st'.noteWrites = st.noteWrites := by
  simp only [processCommit, if_pos trivial] at h
  repeat' split at h
  all_goals first
    | exact Option.noConfusion h
    | (cases h; exact ⟨rfl, rfl⟩)

/-- In dry-run mode the whole loop neither invokes the note writer nor
changes the notes store. -/
theorem processLoop_dryRun_frame
    (o : Oracle) (force : Bool) (mode : OutputMode) (n : Nat) :
    ∀ (cs : List Commit) (i : Nat) (st st' : LoopState),
      processLoop o true force mode n i st cs = some st' →
      st'.notes = st.notes ∧ st'.noteWrites = st.noteWrites := by
  intro cs
  induction cs with
  | nil =>
    intro i st st' h
    simp only [processLoop] at h
    cases h
    exact ⟨rfl, rfl⟩
  | cons c cs ih =>
    intro i st st' h
    simp only [processLoop] at h
    cases hc : processCommit o true force mode n i st c with
    | none => rw [hc] at h; exact Option.noConfusion h
    | some st2 =>
      rw [hc] at h
      obtain ⟨h1, h2⟩ := ih (i + 1) st2 st' h
      obtain ⟨h3, h4⟩ := processCommit_dryRun_frame o force mode n i st c st2 hc
      exact ⟨h1.trans h3, h2.trans h4⟩

/-! ## Claims -/

/-- C1: each commit in the candidate list yields exactly one outcome
record appended to the results sequence (so no commit yields two), and
for every run that completes its processing loop and returns nil the
results sequence has exactly `total` entries and
annotated + skipped + failed = total. -/
theorem C1_one_outcome_and_count_invariant :
    (∀ (o : Oracle) (dryRun force : Bool) (mode : OutputMode) (n i : Nat)
        (st : LoopState) (c : Commit) (st' : LoopState),
        processCommit o dryRun force mode n i st c = some st' →
        ∃ r, st'.results = st.results ++ [r]) ∧
    (∀ (o : Oracle) (dryRun force : Bool) (mode : OutputMode)
        (initNotes : NotesStore) (res : RunOutput),
        runAnnotate o dryRun force mode initNotes = some (.ok res) →
        res.results.length = res.total ∧
          res.annotated + res.skipped + res.failed = res.total) := by
  constructor
  · intro o dryRun force mode n i st c st' h
    obtain ⟨⟨r, hr, _⟩, _⟩ := processCommit_step o dryRun force mode n i st c st' h
    exact ⟨r, hr⟩
  · intro o dryRun force mode initNotes res h
    simp only [runAnnotate] at h
    split at h
    · simp at h
    · exact Option.noConfusion h
    · rename_i commits heqg
      split at h
      · simp only [Option.some.injEq, Except.ok.injEq] at h
        subst h
        simp
      · split at h
        · simp at h
        · split at h
          · simp at h
          · split at h
            · exact Option.noConfusion h
            · rename_i st hloop
              have hc := processLoop_counts o dryRun force mode
                commits.length commits 0 _ st hloop
              simp only [List.length_nil, Nat.zero_add, Nat.add_zero] at hc
              repeat' split at h
              all_goals
                simp only [Option.some.injEq, Except.ok.injEq,
                  reduceCtorEq] at h
              all_goals
                subst h
                dsimp only
                omega

/-- C2: a per-commit failure in diff retrieval, annotation generation, or
note writing is caught at its stage, recorded as an outcome with status
"failed" and a descriptive message, and the loop proceeds with the next
commit; a failure of the commit-enumeration query aborts the run with an
error (which carries no summary); and any non-nil return of the run is a
run-level error (enumeration, configuration, client creation, or JSON
encoding) — never a per-commit failure. -/
theorem C2_two_error_tiers :
    (∀ (o : Oracle) (dryRun force : Bool) (mode : OutputMode)
        (initNotes : NotesStore) (e : String),
        o.logOutput = .error e →
        runAnnotate o dryRun force mode initNotes
          = some (.error ("failed to get commits: " ++ ("git log failed: " ++ e)))) ∧
    (∀ (o : Oracle) (dryRun force : Bool) (mode : OutputMode) (n i : Nat)
        (st : LoopState) (c : Commit) (e : String),
        7 ≤ c.hash.length →
        (!force && hasNote st.notes c.hash "ai") = false →
        o.diff c.hash = .error e →
        ∃ st', processCommit o dryRun force mode n i st c = some st' ∧
          st'.failed = st.failed + 1 ∧
          st'.annotated = st.annotated ∧ st'.skipped = st.skipped ∧
          st'.results = st.results ++
            [{ hash := c.hash.take 7, status := "failed",
               message := "failed to get diff: " ++ e, annotation := "" }] ∧
          ∀ cs, processLoop o dryRun force mode n i st (c :: cs)
            = processLoop o dryRun force mode n (i + 1) st' cs) ∧
    (∀ (o : Oracle) (dryRun force : Bool) (mode : OutputMode) (n i : Nat)
        (st : LoopState) (c : Commit) (d e : String),
        7 ≤ c.hash.length →
        (!force && hasNote st.notes c.hash "ai") = false →
        o.diff c.hash = .ok d → d.length ≠ 0 →
        generateAnnotation o c d = some (.error e) →
        ∃ st', processCommit o dryRun force mode n i st c = some st' ∧
          st'.failed = st.failed + 1 ∧
          st'.annotated = st.annotated ∧ st'.skipped = st.skipped ∧
          st'.results = st.results ++
            [{ hash := c.hash.take 7, status := "failed",
               message := "failed to generate annotation: " ++ e,
               annotation := "" }] ∧
          ∀ cs, processLoop o dryRun force mode n i st (c :: cs)
            = processLoop o dryRun force mode n (i + 1) st' cs) ∧
    (∀ (o : Oracle) (force : Bool) (mode : OutputMode) (n i : Nat)
        (st : LoopState) (c : Commit) (d a e : String),
        7 ≤ c.hash.length →
        (!force && hasNote st.notes c.hash "ai") = false →
        o.diff c.hash = .ok d → d.length ≠ 0 →
        generateAnnotation o c d = some (.ok a) →
        o.addNote c.hash "ai" a = .error e →
        ∃ st', processCommit o false force mode n i st c = some st' ∧
          st'.failed = st.failed + 1 ∧
          st'.annotated = st.annotated ∧ st'.skipped = st.skipped ∧
          st'.results = st.results ++
            [{ hash := c.hash.take 7, status := "failed",
               message := "failed to add note: " ++ e, annotation := "" }] ∧
          ∀ cs, processLoop o false force mode n i st (c :: cs)
            = processLoop o false force mode n (i + 1) st' cs) ∧
    (∀ (o : Oracle) (dryRun force : Bool) (mode : OutputMode)
        (initNotes : NotesStore),
        runAnnotate o dryRun force mode initNotes = none ∨
        (∃ res, runAnnotate o dryRun force mode initNotes = some (.ok res)) ∨
        (∃ e, runAnnotate o dryRun force mode initNotes = some (.error e) ∧
          ((∃ e', e = "failed to get commits: " ++ e') ∨
           (∃ e', e = "invalid AI configuration: " ++ e') ∨
           (∃ e', e = "failed to create AI client: " ++ e') ∨
           e = "failed to encode JSON"))) := by
  refine ⟨?_, ?_, ?_, ?_, ?_⟩
  · intro o dryRun force mode initNotes e he
    simp only [runAnnotate, getCommits, he]
  · intro o dryRun force mode n i st c e hlen hgate hdiff
    have hstep : processCommit o dryRun force mode n i st c = some
        { st with
          failed := st.failed + 1,
          progress := logProgress mode (logProgress mode st.progress
            ("[" ++ toString (i + 1) ++ "/" ++ toString n ++ "] Processing "
              ++ c.hash.take 7)) ("  Failed to get diff: " ++ e),
          results := st.results ++
            [{ hash := c.hash.take 7, status := "failed",
               message := "failed to get diff: " ++ e, annotation := "" }] } := by
      simp only [processCommit, if_pos hlen, hgate, Bool.false_eq_true,
        if_false, hdiff]
    refine ⟨_, hstep, rfl, rfl, rfl, rfl, ?_⟩
    intro cs
    simp only [processLoop, hstep]
  · intro o dryRun force mode n i st c d e hlen hgate hdiff hd hgen
    have hstep : processCommit o dryRun force mode n i st c = some
        { st with
          failed := st.failed + 1,
          progress := logProgress mode (logProgress mode (logProgress mode
            st.progress ("[" ++ toString (i + 1) ++ "/" ++ toString n
              ++ "] Processing " ++ c.hash.take 7))
            "  Generating AI annotation...")
            ("  Failed to generate annotation: " ++ e),
          results := st.results ++
            [{ hash := c.hash.take 7, status := "failed",
               message := "failed to generate annotation: " ++ e,
               annotation := "" }] } := by
      simp only [processCommit, if_pos hlen, hgate, Bool.false_eq_true,
        if_false, hdiff, if_neg hd, hgen]
    refine ⟨_, hstep, rfl, rfl, rfl, rfl, ?_⟩
    intro cs
    simp only [processLoop, hstep]
  · intro o force mode n i st c d a e hlen hgate hdiff hd hgen hadd
    have hstep : processCommit o false force mode n i st c = some
        { st with
          failed := st.failed + 1,
          progress := logProgress mode (logProgress mode (logProgress mode
            st.progress ("[" ++ toString (i + 1) ++ "/" ++ toString n
              ++ "] Processing " ++ c.hash.take 7))
            "  Generating AI annotation...")
            ("  Failed to add note: " ++ e),
          noteWrites := st.noteWrites ++ [(c.hash, "ai", a)],
          results := st.results ++
            [{ hash := c.hash.take 7, status := "failed",
               message := "failed to add note: " ++ e, annotation := "" }] } := by
      simp only [processCommit, if_pos hlen, hgate, Bool.false_eq_true,
        if_false, hdiff, if_neg hd, hgen, hadd, Bool.false_eq_true]
    refine ⟨_, hstep, rfl, rfl, rfl, rfl, ?_⟩
    intro cs
    simp only [processLoop, hstep]
  · intro o dryRun force mode initNotes
    simp only [runAnnotate]
    repeat' split
    all_goals
      first
      | exact Or.inl rfl
      | exact Or.inr (Or.inl ⟨_, rfl⟩)
      | exact Or.inr (Or.inr ⟨_, rfl, Or.inl ⟨_, rfl⟩⟩)
      | exact Or.inr (Or.inr ⟨_, rfl, Or.inr (Or.inl ⟨_, rfl⟩)⟩)
      | exact Or.inr (Or.inr ⟨_, rfl, Or.inr (Or.inr (Or.inl ⟨_, rfl⟩))⟩)
      | exact Or.inr (Or.inr ⟨_, rfl, Or.inr (Or.inr (Or.inr rfl))⟩)

/-- C3: in dry-run (preview) mode the note-writing operation is never
invoked and the notes store is unchanged, so a note-exists check after
the run returns false for every commit that had no note before; a commit
whose annotation is generated is still reported as an outcome with
status "preview" carrying the annotation. -/
theorem C3_dry_run_never_writes :
    (∀ (o : Oracle) (force : Bool) (mode : OutputMode)
        (initNotes : NotesStore) (res : RunOutput),
        runAnnotate o true force mode initNotes = some (.ok res) →
        res.noteWrites = [] ∧ res.notes = initNotes ∧
        ∀ h, hasNote initNotes h "ai" = false →
          hasNote res.notes h "ai" = false) ∧
    (∀ (o : Oracle) (force : Bool) (mode : OutputMode) (n i : Nat)
        (st : LoopState) (c : Commit) (d a : String),
        7 ≤ c.hash.length →
        (!force && hasNote st.notes c.hash "ai") = false →
        o.diff c.hash = .ok d → d.length ≠ 0 →
        generateAnnotation o c d = some (.ok a) →
        ∃ st', processCommit o true force mode n i st c = some st' ∧
          st'.notes = st.notes ∧ st'.noteWrites = st.noteWrites ∧
          st'.results = st.results ++
            [{ hash := c.hash.take 7, status := "preview",
               message := "", annotation := a }]) := by
  constructor
  · intro o force mode initNotes res h
    simp only [runAnnotate] at h
    split at h
    · simp at h
    · exact Option.noConfusion h
    · rename_i commits heqg
      split at h
      · simp only [Option.some.injEq, Except.ok.injEq] at h
        subst h
        exact ⟨rfl, rfl, fun h hf => hf⟩
      · split at h
        · simp at h
        · split at h
          · simp at h
          · split at h
            · exact Option.noConfusion h
            · rename_i st hloop
              obtain ⟨hn, hw⟩ := processLoop_dryRun_frame o force mode
                commits.length commits 0 _ st hloop
              repeat' split at h
              all_goals
                simp only [Option.some.injEq, Except.ok.injEq,
                  reduceCtorEq] at h
              all_goals
                subst h
                refine ⟨hw, hn, fun hh hf => ?_⟩
                dsimp only
                rw [hn]
                exact hf
  · intro o force mode n i st c d a hlen hgate hdiff hd hgen
    have hstep : processCommit o true force mode n i st c = some
        { st with
          annotated := st.annotated + 1,
          progress := logProgress mode (logProgress mode (logProgress mode
            st.progress ("[" ++ toString (i + 1) ++ "/" ++ toString n
              ++ "] Processing " ++ c.hash.take 7))
            "  Generating AI annotation...")
            ("--- Annotation for " ++ c.hash.take 7 ++ " ---\n" ++ a),
          results := st.results ++
            [{ hash := c.hash.take 7, status := "preview",
               message := "", annotation := a }] } := by
      simp only [processCommit, if_pos hlen, hgate, Bool.false_eq_true,
        if_false, hdiff, if_neg hd, hgen, if_true]
    exact ⟨_, hstep, rfl, rfl, rfl⟩

/-- Witness for C1: a concrete one-commit run, at both the step and the
run level. -/
theorem C1_one_outcome_and_count_invariant_witness :
    (∃ r, stA.results = st0.results ++ [r]) ∧
      (recA.results.length = recA.total ∧
        recA.annotated + recA.skipped + recA.failed = recA.total) :=
  ⟨C1_one_outcome_and_count_invariant.1 oracleA false false .quiet 1 0
      st0 cA stA (by decide),
   C1_one_outcome_and_count_invariant.2 oracleA false false .json []
      recA (by decide)⟩

/-- Witness for C2: concrete failing environments for the enumeration
query and for each per-commit stage, plus a healthy run. -/
theorem C2_two_error_tiers_witness :
    (runAnnotate oracleLogErr false false .table []
      = some (.error ("failed to get commits: "
          ++ ("git log failed: " ++ "not a git repository")))) ∧
    (∃ st', processCommit oracleDiffErr false false .quiet 1 0 st0 cA
        = some st' ∧
      st'.failed = st0.failed + 1 ∧ st'.annotated = st0.annotated ∧
      st'.skipped = st0.skipped ∧
      st'.results = st0.results ++
        [{ hash := cA.hash.take 7, status := "failed",
           message := "failed to get diff: " ++ "bad object",
           annotation := "" }] ∧
      processLoop oracleDiffErr false false .quiet 1 0 st0 [cA]
        = processLoop oracleDiffErr false false .quiet 1 1 st' []) ∧
    (∃ st', processCommit oracleGenErr false false .quiet 1 0 st0 cA
        = some st' ∧
      st'.failed = st0.failed + 1 ∧ st'.annotated = st0.annotated ∧
      st'.skipped = st0.skipped ∧
      st'.results = st0.results ++
        [{ hash := cA.hash.take 7, status := "failed",
           message := "failed to generate annotation: "
             ++ ("AI request failed: " ++ "rate limit"),
           annotation := "" }] ∧
      processLoop oracleGenErr false false .quiet 1 0 st0 [cA]
        = processLoop oracleGenErr false false .quiet 1 1 st' []) ∧
    (∃ st', processCommit oracleAddErr false false .quiet 1 0 st0 cA
        = some st' ∧
      st'.failed = st0.failed + 1 ∧ st'.annotated = st0.annotated ∧
      st'.skipped = st0.skipped ∧
      st'.results = st0.results ++
        [{ hash := cA.hash.take 7, status := "failed",
           message := "failed to add note: " ++ "ref locked",
           annotation := "" }] ∧
      processLoop oracleAddErr false false .quiet 1 0 st0 [cA]
        = processLoop oracleAddErr false false .quiet 1 1 st' []) ∧
    (runAnnotate oracleA false false .json [] = none ∨
      (∃ res, runAnnotate oracleA false false .json [] = some (.ok res)) ∨
      (∃ e, runAnnotate oracleA false false .json [] = some (.error e) ∧
        ((∃ e', e = "failed to get commits: " ++ e') ∨
         (∃ e', e = "invalid AI configuration: " ++ e') ∨
         (∃ e', e = "failed to create AI client: " ++ e') ∨
         e = "failed to encode JSON"))) := by
  refine ⟨?_, ?_, ?_, ?_, ?_⟩
  · exact C2_two_error_tiers.1 oracleLogErr false false .table []
      "not a git repository" rfl
  · obtain ⟨st', h1, h2, h3, h4, h5, h6⟩ :=
      C2_two_error_tiers.2.1 oracleDiffErr false false .quiet 1 0 st0 cA
        "bad object" (by decide) (by decide) rfl
    exact ⟨st', h1, h2, h3, h4, h5, h6 []⟩
  · obtain ⟨st', h1, h2, h3, h4, h5, h6⟩ :=
      C2_two_error_tiers.2.2.1 oracleGenErr false false .quiet 1 0 st0 cA
        "difftext" ("AI request failed: " ++ "rate limit")
        (by decide) (by decide) rfl (by decide) (by decide)
    exact ⟨st', h1, h2, h3, h4, h5, h6 []⟩
  · obtain ⟨st', h1, h2, h3, h4, h5, h6⟩ :=
      C2_two_error_tiers.2.2.2.1 oracleAddErr false .quiet 1 0 st0 cA
        "difftext" "a note" "ref locked"
        (by decide) (by decide) rfl (by decide) (by decide) rfl
    exact ⟨st', h1, h2, h3, h4, h5, h6 []⟩
  · exact C2_two_error_tiers.2.2.2.2 oracleA false false .json []

/-- Witness for C3: the three-commit dry run writes nothing, and a
concrete previewed commit gets a "preview" outcome. -/
theorem C3_dry_run_never_writes_witness :
    (rec3.noteWrites = [] ∧ rec3.notes = [] ∧
      hasNote rec3.notes "deadbee4" "ai" = false) ∧
    (∃ st', processCommit oracleA true false .quiet 1 0 st0 cA = some st' ∧
      st'.notes = st0.notes ∧ st'.noteWrites = st0.noteWrites ∧
      st'.results = st0.results ++
        [{ hash := cA.hash.take 7, status := "preview",
           message := "", annotation := "a note" }]) := by
  constructor
  · have happ := C3_dry_run_never_writes.1 oracle3 false .json [] rec3
      (by decide)
    exact ⟨happ.1, happ.2.1, happ.2.2 "deadbee4" (by decide)⟩
  · exact C3_dry_run_never_writes.2 oracleA false .quiet 1 0 st0 cA
      "difftext" "a note" (by decide) (by decide) rfl (by decide) (by decide)

/-- C4 counterexample: over 3 fresh non-merge commits with --dry-run and
JSON output, the emitted summary has annotated = 3, not 0 as the claim
states: the dry-run branch falls through to the annotated++ increment. -/
theorem C4_preview_counted_counterexample :
    runAnnotate oracle3 true false .json [] = some (.ok rec3) ∧
      rec3.annotated = 3 ∧ ¬rec3.annotated = 0 := by
  decide

/-- C4 amended: for that run the summary has total 3, annotated 3,
skipped 0, failed 0, dry_run true, and 3 result entries each with status
"preview" and a non-empty annotation — previewed commits ARE counted in
the annotated tally. -/
theorem C4_dry_run_json_example :
    runAnnotate oracle3 true false .json [] = some (.ok rec3) ∧
      rec3.total = 3 ∧ rec3.annotated = 3 ∧ rec3.skipped = 0 ∧
      rec3.failed = 0 ∧
      rec3.summary = .jsonSummary 3 3 0 0 true rec3results ∧
      rec3.results.length = 3 ∧
      rec3.results.all
        (fun r => r.status == "preview" && !( AnnotationResult.annotation r == "")) = true := by
  decide

/-- C5 (code bug): when the final git-log record fills only three of the
four fields (hash, author, date but no subject), the parsing loop's
condition i+3 <= len(lines) still holds at that record, so lines[i+3] is
read out of range — a runtime panic, not the silent truncation the spec
prescribes. Records missing two or three fields do truncate silently. -/
theorem C5_truncation_panic :
    getCommits (.ok "abcdef1\nAlice <a@x>\n2025-01-01") = .ok none ∧
      splitLines "abcdef1\nAlice <a@x>\n2025-01-01"
        = ["abcdef1", "Alice <a@x>", "2025-01-01"] ∧
      parseCommits ["abcdef1", "Alice <a@x>", "2025-01-01"] = none ∧
      parseCommits ["abcdef1", "Alice <a@x>"] = some [] ∧
      parseCommits ["abcdef1", "Alice <a@x>", "2025-01-01", "subject",
          "bbbbbb2"]
        = some [{ hash := "abcdef1", message := "subject",
                  author := "Alice <a@x>", date := "2025-01-01" }] := by
  decide

/-- C6: a commit whose diff retrieval succeeds with an empty diff is
recorded as an outcome with status "skipped" and message
"no diff (merge commit?)" — never as a failure — for either value of the
force flag. -/
theorem C6_empty_diff_always_skip
    (o : Oracle) (dryRun force : Bool) (mode : OutputMode) (n i : Nat)
    (st : LoopState) (c : Commit)
    (hlen : 7 ≤ c.hash.length)
    (hgate : (!force && hasNote st.notes c.hash "ai") = false)
    (hdiff : o.diff c.hash = .ok "") :
    ∃ st', processCommit o dryRun force mode n i st c = some st' ∧
      st'.skipped = st.skipped + 1 ∧ st'.failed = st.failed ∧
      st'.annotated = st.annotated ∧
      st'.results = st.results ++
        [{ hash := c.hash.take 7, status := "skipped",
           message := "no diff (merge commit?)", annotation := "" }] := by
  have hstep : processCommit o dryRun force mode n i st c = some
      { st with
        skipped := st.skipped + 1,
        progress := logProgress mode (logProgress mode st.progress
          ("[" ++ toString (i + 1) ++ "/" ++ toString n ++ "] Processing "
            ++ c.hash.take 7)) "  No diff (merge commit?), skipping",
        results := st.results ++
          [{ hash := c.hash.take 7, status := "skipped",
             message := "no diff (merge commit?)", annotation := "" }] } := by
    simp only [processCommit, if_pos hlen, hgate, Bool.false_eq_true,
      if_false, hdiff, if_pos (show ("" : String).length = 0 from rfl)]
  exact ⟨_, hstep, rfl, rfl, rfl, rfl⟩

/-- Witness for C6 at a concrete empty-diff commit, with force set and
the commit already annotated. -/
theorem C6_empty_diff_always_skip_witness :
    ∃ st', processCommit oracleC7 false true .quiet 1 0 stPre cA
        = some st' ∧
      st'.skipped = stPre.skipped + 1 ∧ st'.failed = stPre.failed ∧
      st'.annotated = stPre.annotated ∧
      st'.results = stPre.results ++
        [{ hash := cA.hash.take 7, status := "skipped",
           message := "no diff (merge commit?)", annotation := "" }] :=
  C6_empty_diff_always_skip oracleC7 false true .quiet 1 0 stPre cA
    (by decide) (by decide) rfl

/-- For a hash of length at least 7 the annotation generator never
panics. -/
theorem generateAnnotation_isSome (o : Oracle) (c : Commit) (d : String)
    (hlen : 7 ≤ c.hash.length) :
    ∃ v, generateAnnotation o c d = some v := by
  simp only [ generateAnnotation, if_pos hlen]
  split
  · exact ⟨_, rfl⟩
  · exact ⟨_, rfl⟩

/-- For a hash of length at least 7 a loop iteration never panics. -/
theorem processCommit_total
    (o : Oracle) (dryRun force : Bool) (mode : OutputMode) (n i : Nat)
    (st : LoopState) (c : Commit) (hlen : 7 ≤ c.hash.length) :
    ∃ st', processCommit o dryRun force mode n i st c = some st' := by
  rw [← Option.ne_none_iff_exists']
  intro hnone
  simp only [processCommit, if_pos hlen] at hnone
  repeat' split at hnone
  all_goals first
    | exact Option.noConfusion hnone
    | (rename_i heq
       obtain ⟨v, hv⟩ := generateAnnotation_isSome o c _ hlen
       rw [hv] at heq
       exact Option.noConfusion heq)

/-- C7 counterexample: an already-annotated commit processed with force
whose diff is empty produces a "skipped" outcome, contradicting "never
skipped". -/
theorem C7_force_empty_diff_counterexample :
    runAnnotate oracleC7 false true .json [("aaaaaaa1", "ai", "old note")]
        = some (.ok recC7) ∧
      hasNote [("aaaaaaa1", "ai", "old note")] "aaaaaaa1" "ai" = true ∧
      recC7.results.map (fun r => r.status) = ["skipped"] ∧
      ¬("skipped" = "success" ∨ "skipped" = "failed") := by
  decide

/-- C7 amended: with force set the existing-note gate is bypassed — the
iteration's outcome and counters do not depend on the notes store, and
the single appended outcome is "success", "failed", or (only when the
diff is empty) "skipped" with the no-diff message; it is never the
"already annotated" skip. -/
theorem C7_force_bypasses_gate :
    (∀ (o : Oracle) (mode : OutputMode) (n i : Nat) (st : LoopState)
        (c : Commit), 7 ≤ c.hash.length →
        ∃ st' r, processCommit o false true mode n i st c = some st' ∧
          st'.results = st.results ++ [r] ∧
          (r.status = "success" ∨ r.status = "failed" ∨
            (r.status = "skipped" ∧
              r.message = "no diff (merge commit?)"))) ∧
    (∀ (o : Oracle) (dryRun : Bool) (mode : OutputMode) (n i : Nat)
        (st : LoopState) (c : Commit) (ns : NotesStore),
        (processCommit o dryRun true mode n i { st with notes := ns } c).map
            (fun s => (s.annotated, s.skipped, s.failed, s.results))
          = (processCommit o dryRun true mode n i st c).map
            (fun s => (s.annotated, s.skipped, s.failed, s.results))) := by
  constructor
  · intro o mode n i st c hlen
    cases hd : o.diff c.hash with
    | error e =>
      simp only [processCommit, if_pos hlen, Bool.not_true, Bool.false_and,
        Bool.false_eq_true, if_false, hd]
      exact ⟨_, _, rfl, rfl, Or.inr (Or.inl rfl)⟩
    | ok d =>
      by_cases hz : d.length = 0
      · simp only [processCommit, if_pos hlen, Bool.not_true, Bool.false_and,
          Bool.false_eq_true, if_false, hd, if_pos hz]
        exact ⟨_, _, rfl, rfl, Or.inr (Or.inr ⟨rfl, rfl⟩)⟩
      · obtain ⟨v, hv⟩ := generateAnnotation_isSome o c d hlen
        cases v with
        | error e =>
          simp only [processCommit, if_pos hlen, Bool.not_true,
            Bool.false_and, Bool.false_eq_true, if_false, hd, if_neg hz, hv]
          exact ⟨_, _, rfl, rfl, Or.inr (Or.inl rfl)⟩
        | ok a =>
          cases ha : o.addNote c.hash "ai" a with
          | error e =>
            simp only [processCommit, if_pos hlen, Bool.not_true,
              Bool.false_and, Bool.false_eq_true, if_false, hd, if_neg hz,
              hv, ha]
            exact ⟨_, _, rfl, rfl, Or.inr (Or.inl rfl)⟩
          | ok u =>
            simp only [processCommit, if_pos hlen, Bool.not_true,
              Bool.false_and, Bool.false_eq_true, if_false, hd, if_neg hz,
              hv, ha]
            exact ⟨_, _, rfl, rfl, Or.inl rfl⟩
  · intro o dryRun mode n i st c ns
    by_cases hlen : 7 ≤ c.hash.length
    · cases hd : o.diff c.hash with
      | error e =>
        simp only [processCommit, if_pos hlen, Bool.not_true, Bool.false_and,
          Bool.false_eq_true, if_false, hd]
        rfl
      | ok d =>
        by_cases hz : d.length = 0
        · simp only [processCommit, if_pos hlen, Bool.not_true,
            Bool.false_and, Bool.false_eq_true, if_false, hd, if_pos hz]
          rfl
        · cases hv : generateAnnotation o c d with
          | none =>
            simp only [processCommit, if_pos hlen, Bool.not_true,
              Bool.false_and, Bool.false_eq_true, if_false, hd, if_neg hz, hv]
          | some v =>
            cases v with
            | error e =>
              simp only [processCommit, if_pos hlen, Bool.not_true,
                Bool.false_and, Bool.false_eq_true, if_false, hd, if_neg hz,
                hv]
              rfl
            | ok a =>
              cases dryRun with
              | true =>
                simp only [processCommit, if_pos hlen, Bool.not_true,
                  Bool.false_and, Bool.false_eq_true, if_false, hd,
                  if_neg hz, hv, if_true]
                rfl
              | false =>
                cases ha : o.addNote c.hash "ai" a with
                | error e =>
                  simp only [processCommit, if_pos hlen, Bool.not_true,
                    Bool.false_and, Bool.false_eq_true, if_false, hd,
                    if_neg hz, hv, ha, Bool.false_eq_true]
                  rfl
                | ok u =>
                  simp only [processCommit, if_pos hlen, Bool.not_true,
                    Bool.false_and, Bool.false_eq_true, if_false, hd,
                    if_neg hz, hv, ha, Bool.false_eq_true]
                  rfl
    · simp only [processCommit, if_neg hlen]

/-- Witness for C7's amended statement at a concrete force run over an
annotated commit with an empty diff. -/
theorem C7_force_bypasses_gate_witness :
    (∃ st' r, processCommit oracleC7 false true .quiet 1 0 stPre cA
        = some st' ∧
      st'.results = stPre.results ++ [r] ∧
      (r.status = "success" ∨ r.status = "failed" ∨
        (r.status = "skipped" ∧ r.message = "no diff (merge commit?)"))) ∧
    ((processCommit oracleC7 false true .quiet 1 0
          { st0 with notes := [("aaaaaaa1", "ai", "old note")] } cA).map
        (fun s => (s.annotated, s.skipped, s.failed, s.results))
      = (processCommit oracleC7 false true .quiet 1 0 st0 cA).map
        (fun s => (s.annotated, s.skipped, s.failed, s.results))) :=
  ⟨C7_force_bypasses_gate.1 oracleC7 .quiet 1 0 stPre cA (by decide),
   C7_force_bypasses_gate.2 oracleC7 false .quiet 1 0 st0 cA
     [("aaaaaaa1", "ai", "old note")]⟩

/-- C8 counterexample: a yaml-mode run suppresses progress but emits the
default human-readable text summary, not a single encoded structure of
shape {total, annotated, skipped, failed, dry_run, results}. -/
theorem C8_yaml_counterexample :
    runAnnotate oracleA false false .yaml [] = some (.ok recY) ∧
      recY.progress = [] ∧
      isEncodedSummary recY.summary = false ∧
      recY.summary = .textSummary 1 0 0 false := by
  decide

/-- C8 amended: json mode suppresses per-commit progress lines and (for a
non-empty candidate list) emits the single encoded
{total, annotated, skipped, failed, dry_run, results} structure; yaml
mode also suppresses progress lines but its summary goes through the
default text branch; an empty candidate list emits no summary in either
mode. -/
theorem C8_structured_output_modes :
    (∀ (o : Oracle) (dryRun force : Bool) (initNotes : NotesStore)
        (res : RunOutput),
        runAnnotate o dryRun force .json initNotes = some (.ok res) →
        res.progress = [] ∧
          (res.summary = .jsonSummary res.total res.annotated res.skipped
              res.failed dryRun res.results ∨
            (res.total = 0 ∧ res.summary = .noSummary))) ∧
    (∀ (o : Oracle) (dryRun force : Bool) (initNotes : NotesStore)
        (res : RunOutput),
        runAnnotate o dryRun force .yaml initNotes = some (.ok res) →
        res.progress = [] ∧
          (res.summary = .textSummary res.annotated res.skipped res.failed
              dryRun ∨
            (res.total = 0 ∧ res.summary = .noSummary))) := by
  constructor
  · intro o dryRun force initNotes res h
    simp only [runAnnotate] at h
    split at h
    · simp at h
    · exact Option.noConfusion h
    · rename_i commits heqg
      split at h
      · simp only [Option.some.injEq, Except.ok.injEq] at h
        subst h
        exact ⟨rfl, Or.inr ⟨rfl, rfl⟩⟩
      · split at h
        · simp at h
        · split at h
          · simp at h
          · split at h
            · exact Option.noConfusion h
            · rename_i st hloop
              have hp := processLoop_progress o dryRun force .json
                commits.length (by decide) commits 0 _ st hloop
              split at h
              · simp only [Option.some.injEq, Except.ok.injEq] at h
                subst h
                exact ⟨hp.trans rfl, Or.inl rfl⟩
              · simp at h
  · intro o dryRun force initNotes res h
    simp only [runAnnotate] at h
    split at h
    · simp at h
    · exact Option.noConfusion h
    · rename_i commits heqg
      split at h
      · simp only [Option.some.injEq, Except.ok.injEq] at h
        subst h
        exact ⟨rfl, Or.inr ⟨rfl, rfl⟩⟩
      · split at h
        · simp at h
        · split at h
          · simp at h
          · split at h
            · exact Option.noConfusion h
            · rename_i st hloop
              have hp := processLoop_progress o dryRun force .yaml
                commits.length (by decide) commits 0 _ st hloop
              simp only [Option.some.injEq, Except.ok.injEq] at h
              subst h
              exact ⟨hp.trans rfl, Or.inl rfl⟩

/-- Witness for C8's amended statement: the one-commit environment run in
json and in yaml mode. -/
theorem C8_structured_output_modes_witness :
    (recA.progress = [] ∧
      (recA.summary = .jsonSummary recA.total recA.annotated recA.skipped
          recA.failed false recA.results ∨
        (recA.total = 0 ∧ recA.summary = .noSummary))) ∧
    (recY.progress = [] ∧
      (recY.summary = .textSummary recY.annotated recY.skipped recY.failed
          false ∨
        (recY.total = 0 ∧ recY.summary = .noSummary))) :=
  ⟨C8_structured_output_modes.1 oracleA false false [] recA (by decide),
   C8_structured_output_modes.2 oracleA false false [] recY (by decide)⟩

/-- C9: when the commit selector yields an empty candidate list the run
returns nil immediately with no summary in any output mode, and the
result does not depend on the AI configuration validator or the client
constructor — an invalid configuration causes no error. -/
theorem C9_empty_candidates_short_circuit
    (o : Oracle) (dryRun force : Bool) (mode : OutputMode)
    (initNotes : NotesStore)
    (hg : getCommits o.logOutput = .ok (some [])) :
    (∃ p, runAnnotate o dryRun force mode initNotes = some (.ok
      { total := 0, annotated := 0, skipped := 0, failed := 0,
        results := [], progress := p, summary := .noSummary,
        notes := initNotes, noteWrites := [] })) ∧
    (∀ v nc, runAnnotate
        { o with validateConfig := v, newClient := nc }
        dryRun force mode initNotes
      = runAnnotate o dryRun force mode initNotes) := by
  have key : ∀ (o' : Oracle), getCommits o'.logOutput = .ok (some []) →
      runAnnotate o' dryRun force mode initNotes = some (.ok
        { total := 0, annotated := 0, skipped := 0, failed := 0,
          results := [],
          progress := logProgress mode (logProgress mode []
            "Starting git history annotation...") "No commits to annotate.",
          summary := .noSummary, notes := initNotes, noteWrites := [] }) := by
    intro o' hg'
    simp only [runAnnotate, hg', List.length_nil, if_true]
  exact ⟨⟨_, key o hg⟩,
    fun v nc =>
      (key { o with validateConfig := v, newClient := nc } hg).trans
        (key o hg).symm⟩

/-- Witness for C9: a no-commit history with an invalid AI
configuration. -/
theorem C9_empty_candidates_short_circuit_witness :
    (∃ p, runAnnotate oracleEmpty false false .json [] = some (.ok
      { total := 0, annotated := 0, skipped := 0, failed := 0,
        results := [], progress := p, summary := .noSummary,
        notes := [], noteWrites := [] })) ∧
    runAnnotate
        { oracleEmpty with validateConfig := .ok (), newClient := .ok () }
        false false .json []
      = runAnnotate oracleEmpty false false .json [] := by
  have happ := C9_empty_candidates_short_circuit oracleEmpty false false
    .json [] (by decide)
  exact ⟨happ.1, happ.2 (.ok ()) (.ok ())⟩

/-- C10: every outcome appended by the loop carries the 7-character short
form of its commit's hash; when every candidate hash has at least 7
characters the per-commit loop never panics (no slice is out of range);
the generated prompt is built from the 7-character short hash; and a
parsed hash shorter than 7 characters makes the iteration panic, so the
slicing is well-defined only under that precondition. -/
theorem C10_short_hash_slices :
    (∀ (o : Oracle) (dryRun force : Bool) (mode : OutputMode) (n : Nat)
        (cs : List Commit) (i : Nat) (st : LoopState),
        (∀ c ∈ cs, 7 ≤ c.hash.length) →
        ∃ st', processLoop o dryRun force mode n i st cs = some st' ∧
          ∀ r ∈ st'.results, r ∈ st.results ∨
            ∃ c ∈ cs, r.hash = c.hash.take 7) ∧
    (∀ (o : Oracle) (c : Commit) (d : String), 7 ≤ c.hash.length →
        generateAnnotation o c d = some (
          match o.backend
            (AnnotateCommit (c.hash.take 7) c.message c.author c.date d).1
            (AnnotateCommit (c.hash.take 7) c.message c.author c.date d).2
            AnnotateCommitModel with
          | .error e => .error ("AI request failed: " ++ e)
          | .ok text => .ok (trimSpace text))) ∧
    (∀ (o : Oracle) (dryRun force : Bool) (mode : OutputMode) (n i : Nat)
        (st : LoopState) (c : Commit), c.hash.length < 7 →
        processCommit o dryRun force mode n i st c = none) := by
  refine ⟨?_, ?_, ?_⟩
  · intro o dryRun force mode n cs
    induction cs with
    | nil =>
      intro i st _
      exact ⟨st, rfl, fun r hr => Or.inl hr⟩
    | cons c cs ih =>
      intro i st hlen
      obtain ⟨st2, h2⟩ := processCommit_total o dryRun force mode n i st c
        (hlen c (List.mem_cons_self c cs))
      obtain ⟨⟨r0, hr0, hhash⟩, _⟩ :=
        processCommit_step o dryRun force mode n i st c st2 h2
      obtain ⟨st', hloop, hmem⟩ := ih (i + 1) st2
        (fun c' hc' => hlen c' (List.mem_cons_of_mem c hc'))
      refine ⟨st', ?_, ?_⟩
      · simp only [processLoop, h2, hloop]
      · intro r hr
        rcases hmem r hr with hin | ⟨c', hc', hh⟩
        · rw [hr0] at hin
          rcases List.mem_append.mp hin with hin | hin
          · exact Or.inl hin
          · refine Or.inr ⟨c, List.mem_cons_self c cs, ?_⟩
            rw [List.mem_singleton.mp hin]
            exact hhash
        · exact Or.inr ⟨c', List.mem_cons_of_mem c hc', hh⟩
  · intro o c d hlen
    simp only [ generateAnnotation, if_pos hlen]
    cases o.backend (AnnotateCommit (c.hash.take 7) c.message c.author
        c.date d).1
      (AnnotateCommit (c.hash.take 7) c.message c.author c.date d).2
      AnnotateCommitModel with
    | error e => rfl
    | ok t => rfl
  · intro o dryRun force mode n i st c h
    simp only [processCommit, if_neg (Nat.not_le.mpr h)]

/-- Witness for C10: a one-commit loop with a long hash, the prompt of a
concrete commit, and a panic on a 3-character hash. -/
theorem C10_short_hash_slices_witness :
    (∃ st', processLoop oracleA false false .quiet 1 0 st0 [cA]
        = some st' ∧
      ∀ r ∈ st'.results, r ∈ st0.results ∨
        ∃ c ∈ [cA], r.hash = c.hash.take 7) ∧
    ( generateAnnotation oracleA cA "difftext" = some (
      match oracleA.backend
        (AnnotateCommit (cA.hash.take 7) cA.message cA.author cA.date
          "difftext").1
        (AnnotateCommit (cA.hash.take 7) cA.message cA.author cA.date
          "difftext").2
        AnnotateCommitModel with
      | .error e => .error ("AI request failed: " ++ e)
      | .ok text => .ok (trimSpace text))) ∧
    processCommit oracleA false false .quiet 1 0 st0 cShort = none :=
  ⟨C10_short_hash_slices.1 oracleA false false .quiet 1 [cA] 0 st0
     (by decide),
   C10_short_hash_slices.2.1 oracleA cA "difftext" (by decide),
   C10_short_hash_slices.2.2 oracleA false false .quiet 1 0 st0 cShort
     (by decide)⟩

end ArcGit
